import Mathlib

/-!
Shallow embedding of the secure-unlocker control plane (src/src/index.ts and
the per-volume unlock worker script of src/module.nix), together with models of
the documented behavior of its two express middlewares (express.json body
parsing restricted to flat string objects, and express-rate-limit as configured
in src/src/index.ts).

Cryptographic primitives are abstract parameters: `sha256hex` stands for the
hex-encoded SHA-256 digest, and `edVerify pk msg sig` stands for Node's
Ed25519 `crypto.verify` call, returning `.error ()` when key construction or
verification raises (caught by the try/catch of `verifySignature`).
-/

namespace SecureUnlocker

/-! ### Characters and small string utilities -/

/-- Double-quote character. -/
def dq : Char := Char.ofNat 34

/-- Backslash character. -/
def bslash : Char := Char.ofNat 92

/-- Opening curly brace character. -/
def lbr : Char := Char.ofNat 123

/-- Closing curly brace character. -/
def rbr : Char := Char.ofNat 125

/-- Whitespace characters recognized by both `parseInt` and `JSON.parse`. -/
def isWsChar (c : Char) : Bool :=
  c = ' ' || c = '\t' || c = '\n' || c = '\r'

/-- Drop leading whitespace from a character list. -/
def skipWs : List Char → List Char
  | [] => []
  | c :: cs => if isWsChar c then skipWs cs else c :: cs

/-- JavaScript `String.prototype.toLowerCase` on ASCII strings. -/
def toLowerStr (s : String) : String := String.mk (List.map Char.toLower s.data)

/-! ### JavaScript `parseInt(s, 10)` -/

/-- Take the maximal leading run of decimal digits. -/
def takeDigits : List Char → List Char × List Char
  | [] => ([], [])
  | c :: cs =>
    if c.isDigit then
      let p := takeDigits cs
      (c :: p.1, p.2)
    else ([], c :: cs)

/-- Numeric value of a digit list. -/
def digitsVal (ds : List Char) : Nat :=
  ds.foldl (fun acc c => acc * 10 + (c.toNat - 48)) 0

/-- Model of JavaScript `parseInt(s, 10)`: skip leading whitespace, read an
optional sign and then the maximal leading run of decimal digits, ignoring any
trailing garbage; `none` models `NaN` (no leading digits). -/
def parseIntJS (s : String) : Option Int :=
  let cs := skipWs s.data
  let p : Int × List Char :=
    match cs with
    | c :: rest =>
      if c = '-' then (-1, rest)
      else if c = '+' then (1, rest) else (1, cs)
    | [] => (1, [])
  let d := takeDigits p.2
  if d.1 = [] then none else some (p.1 * (digitsVal d.1 : Int))

/-! ### JSON fragment: flat objects with string values

Models `JSON.parse` / `JSON.stringify` (as used by the express.json body
parser and by `verifySignature`) on the fragment the service exchanges:
objects mapping string keys to string values, without escape sequences.
Where `jsonParseFlat` returns `some`, `JSON.parse` agrees. -/

/-- Read the characters of a string literal body up to the closing quote.
Escape sequences are outside the modelled fragment. -/
def strChars : List Char → Option (List Char × List Char)
  | [] => none
  | c :: cs =>
    if c = dq then some ([], cs)
    else if c = bslash then none
    else
      match strChars cs with
      | some p => some (c :: p.1, p.2)
      | none => none

/-- Parse a JSON string literal. -/
def parseStringLit : List Char → Option (String × List Char)
  | [] => none
  | c :: cs =>
    if c = dq then
      match strChars cs with
      | some p => some (String.mk p.1, p.2)
      | none => none
    else none

/-- Parse one or more `"key": "value"` members, consuming the closing brace. -/
def parseMembers : Nat → List Char → Option (List (String × String) × List Char)
  | 0, _ => none
  | Nat.succ fuel, cs =>
    match parseStringLit (skipWs cs) with
    | none => none
    | some (k, cs1) =>
      match skipWs cs1 with
      | [] => none
      | c :: cs2 =>
        if c = ':' then
          match parseStringLit (skipWs cs2) with
          | none => none
          | some (v, cs3) =>
            match skipWs cs3 with
            | [] => none
            | d :: cs4 =>
              if d = ',' then
                match parseMembers fuel cs4 with
                | some p => some ((k, v) :: p.1, p.2)
                | none => none
              else if d = rbr then some ([(k, v)], cs4)
              else none
        else none

/-- Model of `JSON.parse` on the flat-object fragment: `some fields` when the
whole input is one object of string members, `none` otherwise. -/
def jsonParseFlat (s : String) : Option (List (String × String)) :=
  match skipWs s.data with
  | [] => none
  | c :: cs =>
    if c = lbr then
      match skipWs cs with
      | [] => none
      | d :: cs1 =>
        if d = rbr then (if skipWs cs1 = [] then some [] else none)
        else
          match parseMembers s.length (d :: cs1) with
          | some p => if skipWs p.2 = [] then some p.1 else none
          | none => none
    else none

/-- Wrap a string in double quotes. -/
def quoteStr (s : String) : String :=
  String.singleton dq ++ s ++ String.singleton dq

/-- Model of `JSON.stringify` on flat string objects: no added whitespace,
members in order. -/
def jsonStringifyFlat (fields : List (String × String)) : String :=
  String.singleton lbr ++
    String.intercalate "," (fields.map fun kv => quoteStr kv.1 ++ ":" ++ quoteStr kv.2) ++
    String.singleton rbr

/-! ### Requests and responses -/

/-- Outcome of a middleware: pass the request on (`next()`), or end it with a
status code and the `error` field of the JSON body. -/
inductive ApiResponse where
  | next : ApiResponse
  | reject : Nat → String → ApiResponse
  deriving DecidableEq, Repr

/-- An inbound HTTP request as `verifySignature` sees it: `body` is the
object produced by the express.json parser (`[]` for an absent or empty
body, matching `req.body` being `\x7b\x7d`). -/
structure VRequest where
  method : String
  path : String
  originalUrl : String
  hSignature : Option String
  hTimestamp : Option String
  hPublicKey : Option String
  body : List (String × String)

/-- Server-side environment of the verifier: the `ALLOWED_PUBLIC_KEYS` list
and the current unix time in seconds (`Math.floor(Date.now() / 1000)`). -/
structure AuthEnv where
  allowedPublicKeys : List String
  now : Int

/-- JavaScript falsiness of a header value: absent or the empty string. -/
def falsyHeader : Option String → Bool
  | none => true
  | some s => s = ""

/-- The string whose digest becomes BODYHASH, from src/src/index.ts line 89:
`JSON.stringify(req.body)` when the parsed body has at least one key, the
empty string otherwise. -/
def bodyStr (r : VRequest) : String :=
  if r.body = [] then "" else jsonStringifyFlat r.body

/-- The canonical message `verifySignature` builds (src/src/index.ts line 92):
`METHOD:originalUrl:TIMESTAMP:BODYHASH`. -/
def canonicalMessage (sha256hex : String → String) (r : VRequest) (ts : String) : String :=
  r.method ++ ":" ++ r.originalUrl ++ ":" ++ ts ++ ":" ++ sha256hex (bodyStr r)

/-- Canonical message as the specification words it: the BODYHASH is the
digest of the exact request body bytes as sent by the client (the digest of
the empty byte sequence when the body is absent or empty). -/
def specCanonicalMessage (sha256hex : String → String)
    (method url ts rawBody : String) : String :=
  method ++ ":" ++ url ++ ":" ++ ts ++ ":" ++ sha256hex rawBody

/-- The unauthenticated skip-list of `verifySignature` (src/src/index.ts
lines 46-50). -/
def skipAuth (r : VRequest) : Bool :=
  r.path = "/health" || List.isPrefixOf "/icon".data r.path.data ||
  r.path = "/manifest.json" || r.path = "/sw.js" || r.path = "/"

/-- Body of the try block of `verifySignature` (src/src/index.ts lines
67-145): key membership, timestamp freshness, canonical message build, and
the Ed25519 check; an `.error` result models a raised exception. -/
def verifyTry (sha256hex : String → String)
    (edVerify : String → String → String → Except Unit Bool)
    (env : AuthEnv) (r : VRequest) (sig ts pk : String) : Except Unit ApiResponse :=
  if env.allowedPublicKeys.contains (toLowerStr pk) = false then
    Except.ok (.reject 401 "Authentication failed")
  else
    match parseIntJS ts with
    | none => Except.ok (.reject 401 "Authentication failed")
    | some t =>
      if 300 < (env.now - t).natAbs then
        Except.ok (.reject 401 "Authentication failed")
      else do
        let ok ← edVerify pk (canonicalMessage sha256hex r ts) sig
        if ok then pure .next else pure (.reject 401 "Authentication failed")

/-- The `verifySignature` middleware (src/src/index.ts lines 44-150):
skip-list, fail-closed check on an empty key list, required-header check,
then the try block with its catch mapping any exception to a 401. -/
def verifySignature (sha256hex : String → String)
    (edVerify : String → String → String → Except Unit Bool)
    (env : AuthEnv) (r : VRequest) : ApiResponse :=
  if skipAuth r then .next
  else if env.allowedPublicKeys = [] then .reject 503 "Authentication not configured"
  else
    match r.hSignature, r.hTimestamp, r.hPublicKey with
    | some sig, some ts, some pk =>
      if sig = "" || ts = "" || pk = "" then .reject 401 "Missing authentication headers"
      else
        match verifyTry sha256hex edVerify env r sig ts pk with
        | .ok resp => resp
        | .error _ => .reject 401 "Signature verification failed"
    | _, _, _ => .reject 401 "Missing authentication headers"

/-! ### The express-rate-limit middleware as configured

Models the documented behavior of express-rate-limit for one client IP:
`increment` on request arrival (resetting an expired window), denial with 429
when the incremented count exceeds `maxHits`, and — because both limiters set
`skipSuccessfulRequests: true` — a decrement after the response when its
status code is below 400. -/

/-- Limiter configuration: `windowMs` and `max` of the `rateLimit` call. -/
structure LimiterConfig where
  windowMs : Int
  maxHits : Nat

/-- Per-client limiter record: expiry instant of the current window and the
hit count within it. -/
structure LimiterState where
  resetTime : Int
  hits : Nat
  deriving DecidableEq, Repr

/-- `authFailureLimiter` configuration (src/src/index.ts lines 24-31). -/
def authLimiterConfig : LimiterConfig where
  windowMs := 15 * 60 * 1000
  maxHits := 20

/-- `mountLimiter` configuration (src/src/index.ts lines 34-41). -/
def mountLimiterConfig : LimiterConfig where
  windowMs := 15 * 60 * 1000
  maxHits := 10

/-- Request arrival at a limiter: reset an expired window, count the hit,
and report whether the request is denied with 429. -/
def limiterEnter (cfg : LimiterConfig) (nowMs : Int) (st : LimiterState) :
    LimiterState × Bool :=
  let st1 := if st.resetTime ≤ nowMs then LimiterState.mk (nowMs + cfg.windowMs) 0 else st
  let st2 := LimiterState.mk st1.resetTime (st1.hits + 1)
  (st2, decide (cfg.maxHits < st2.hits))

/-- Response completion at a limiter with `skipSuccessfulRequests: true`:
hits for responses with status below 400 are uncounted. -/
def limiterExit (st : LimiterState) (status : Nat) : LimiterState :=
  if status < 400 then LimiterState.mk st.resetTime (st.hits - 1) else st

/-- Final status of a request after the verification middleware, given the
status the downstream route stack would produce. -/
def outcomeStatus (o : ApiResponse) (routeStatus : Nat) : Nat :=
  match o with
  | .next => routeStatus
  | .reject s _ => s

/-- An API request travelling through `app.use(authFailureLimiter)` and then
`app.use(verifySignature)` (src/src/index.ts lines 191-194); `route` is the
status code of the route stack reached when verification passes. Returns the
response status and the auth limiter state left behind. -/
def apiPipeline (sha256hex : String → String)
    (edVerify : String → String → String → Except Unit Bool)
    (env : AuthEnv) (nowMs : Int) (authSt : LimiterState)
    (r : VRequest) (route : VRequest → Nat) : Nat × LimiterState :=
  let e := limiterEnter authLimiterConfig nowMs authSt
  if e.2 then (429, e.1)
  else
    let status := outcomeStatus (verifySignature sha256hex edVerify env r) (route r)
    (status, limiterExit e.1 status)

/-! ### Mount / unmount handlers and the unlock worker -/

/-- Response of a mount or unmount route handler. -/
inductive MountResponse where
  | success : MountResponse
  | clientError : String → MountResponse
  | serverError : String → MountResponse
  deriving DecidableEq, Repr

/-- Status code of a mount-route response. -/
def mountRespStatus : MountResponse → Nat
  | .success => 200
  | .clientError _ => 400
  | .serverError _ => 500

/-- Observable system state the handlers act on: per-unit `systemctl
is-active` answer, whether `systemctl start` / `systemctl stop` succeed,
whether opening and writing the named pipe succeeds, and the log of secret
writes delivered to the pipes. -/
structure SysState where
  active : String → Bool
  startOk : String → Bool
  stopOk : String → Bool
  writeOk : String → Bool
  pipeWrites : List (String × String)

/-- The volume-name pattern of src/src/index.ts line 239. -/
def nameOk (name : String) : Bool :=
  name ≠ "" && name.data.all fun c => c.isAlphanum || c = '.' || c = '_' || c = '-'

/-- The password extracted from the parsed request body. -/
def bodyPassword (r : VRequest) : Option String :=
  List.lookup "password" r.body

/-- The `POST /mount/:name` handler (src/src/index.ts lines 233-295): name
validation, password presence, is-active idempotency check, service start,
then one write of `password + newline` into the volume's pipe followed by
closing the writer, answering success as soon as the write lands. -/
def mountHandler (st : SysState) (name : String) (password : Option String) :
    MountResponse × SysState :=
  if nameOk name = false then
    (.clientError "Invalid name format. Only alphanumeric characters, dots, hyphens, and underscores are allowed.", st)
  else if falsyHeader password then
    (.clientError "Password is required in request body", st)
  else if st.active name then
    (.clientError "Already mounted", st)
  else if st.startOk name = false then
    (.serverError "Failed to start mount service", st)
  else
    let st1 := SysState.mk (fun n => if n = name then true else st.active n)
      st.startOk st.stopOk st.writeOk st.pipeWrites
    if st.writeOk name = false then
      (.serverError "Failed to write to pipe", st1)
    else
      (.success, SysState.mk st1.active st1.startOk st1.stopOk st1.writeOk
        (st1.pipeWrites ++ [(name, (password.getD "") ++ "\n")]))

/-- The `POST /unmount/:name` handler (src/src/index.ts lines 297-330). -/
def unmountHandler (st : SysState) (name : String) : MountResponse × SysState :=
  if nameOk name = false then
    (.clientError "Invalid name format. Only alphanumeric characters, dots, hyphens, and underscores are allowed.", st)
  else if st.active name = false then
    (.clientError "Mount is not active", st)
  else if st.stopOk name = false then
    (.serverError "Failed to unmount", st)
  else
    (.success, SysState.mk (fun n => if n = name then false else st.active n)
      st.startOk st.stopOk st.writeOk st.pipeWrites)

/-- A mount request travelling through the full stack: the app-level
`authFailureLimiter` and `verifySignature`, then the route-level
`mountLimiter`, then the mount handler. Returns the response status and the
final auth limiter, mount limiter and system states. -/
def mountPipeline (sha256hex : String → String)
    (edVerify : String → String → String → Except Unit Bool)
    (env : AuthEnv) (nowMs : Int) (authSt mountSt : LimiterState)
    (sys : SysState) (r : VRequest) (name : String) :
    Nat × LimiterState × LimiterState × SysState :=
  let e := limiterEnter authLimiterConfig nowMs authSt
  if e.2 then (429, e.1, mountSt, sys)
  else
    match verifySignature sha256hex edVerify env r with
    | .reject s _ => (s, limiterExit e.1 s, mountSt, sys)
    | .next =>
      let m := limiterEnter mountLimiterConfig nowMs mountSt
      if m.2 then (429, limiterExit e.1 429, m.1, sys)
      else
        let h := mountHandler sys name (bodyPassword r)
        let s := mountRespStatus h.1
        (s, limiterExit e.1 s, limiterExit m.1 s, h.2)

/-- An unmount request travelling through the full stack: the app-level
`authFailureLimiter` and `verifySignature`, then the route-level
`mountLimiter` (shared by both endpoints, src/src/index.ts line 297), then
the unmount handler. Returns the response status and the final auth limiter,
mount limiter and system states. -/
def unmountPipeline (sha256hex : String → String)
    (edVerify : String → String → String → Except Unit Bool)
    (env : AuthEnv) (nowMs : Int) (authSt mountSt : LimiterState)
    (sys : SysState) (r : VRequest) (name : String) :
    Nat × LimiterState × LimiterState × SysState :=
  let e := limiterEnter authLimiterConfig nowMs authSt
  if e.2 then (429, e.1, mountSt, sys)
  else
    match verifySignature sha256hex edVerify env r with
    | .reject s _ => (s, limiterExit e.1 s, mountSt, sys)
    | .next =>
      let m := limiterEnter mountLimiterConfig nowMs mountSt
      if m.2 then (429, limiterExit e.1 429, m.1, sys)
      else
        let h := unmountHandler sys name
        let s := mountRespStatus h.1
        (s, limiterExit e.1 s, limiterExit m.1 s, h.2)

/-- Phase of the per-volume unlock worker of `mkUnlockScript`
(src/module.nix lines 96-144): `listening` while the read loop runs,
`mounted` once a correct secret unlocked and mounted the volume and the
script exited with the unit staying active (`RemainAfterExit`). -/
inductive WorkerPhase where
  | listening : WorkerPhase
  | mounted : WorkerPhase
  deriving DecidableEq, Repr

/-- One iteration of the worker's read loop on receiving `secret`:
an empty read is ignored, a wrong secret is logged and the loop returns to
listening, the correct secret transitions to `mounted`. -/
def workerStep (correctSecret : String) (ph : WorkerPhase) (secret : String) :
    WorkerPhase :=
  match ph with
  | .mounted => .mounted
  | .listening =>
    if secret = "" then .listening
    else if secret = correctSecret then .mounted
    else .listening

/-! ### Concrete fixtures used by witnesses and counterexamples

The hash parameter is instantiated with the identity function: the model's
claims are quantified over the digest function, and the identity is injective
on the finitely many strings appearing here, exactly the property a real
SHA-256 digest provides (collision resistance) on these inputs. Oracles
instantiate `edVerify` with the behavior a real Ed25519 verifier exhibits for
a signature created over a specific message. -/

/-- Identity instantiation of the abstract digest. -/
def idHash : String → String := fun s => s

/-- A raw request body with interior whitespace, as a client may send it. -/
def rawBodyEx : String := "\x7b\"a\": \"b\"\x7d"

/-- Environment trusting the lowercase key `ab` at server time 100. -/
def envAB : AuthEnv := AuthEnv.mk ["ab"] 100

/-- Environment whose configured trusted key contains uppercase hex. -/
def envUpper : AuthEnv := AuthEnv.mk ["AB"] 100

/-- A `GET /list` request with the given authentication headers. -/
def reqListH (sig ts pk : Option String) : VRequest :=
  VRequest.mk "GET" "/list" "/list" sig ts pk []

/-- A request with no authentication headers at all. -/
def reqNoHeaders : VRequest := reqListH none none none

/-- The mount request whose parsed body is the object parsed from
`rawBodyEx`. -/
def reqMountEx : VRequest :=
  VRequest.mk "POST" "/mount/v" "/mount/v" (some "s1") (some "100") (some "ab") [("a", "b")]

/-- Oracle behaving like Ed25519 verification when `s1` is the signature the
client made with key `ab` over the spec's canonical message for `rawBodyEx`:
it accepts exactly that key, message and signature. -/
def oracleSpecMsg : String → String → String → Except Unit Bool := fun pk msg sig =>
  Except.ok (pk = "ab" && sig = "s1" &&
    msg = specCanonicalMessage idHash "POST" "/mount/v" "100" rawBodyEx)

/-- Oracle accepting every signature. -/
def oracleTrue : String → String → String → Except Unit Bool := fun _ _ _ => Except.ok true

/-- Oracle rejecting every signature. -/
def oracleFalse : String → String → String → Except Unit Bool := fun _ _ _ => Except.ok false

/-- Oracle that raises, as Node's crypto does on a malformed key. -/
def oracleThrow : String → String → String → Except Unit Bool := fun _ _ _ => Except.error ()

/-- Route stack that would answer 200 if reached. -/
def routeOk : VRequest → Nat := fun _ => 200

/-- Auth-limiter evolution produced by one header-less request at `nowMs = 0`
against `envAB`. -/
def malformedTick (st : LimiterState) : LimiterState :=
  (apiPipeline idHash oracleTrue envAB 0 st reqNoHeaders routeOk).2

/-- System state in which every unit is active. -/
def sysAllActive : SysState :=
  SysState.mk (fun _ => true) (fun _ => true) (fun _ => true) (fun _ => true) []

/-- System state in which no unit is active and every operation succeeds. -/
def sysFresh : SysState :=
  SysState.mk (fun _ => false) (fun _ => true) (fun _ => true) (fun _ => true) []

/-- System state in which no unit is active and `systemctl start` fails. -/
def sysStartFail : SysState :=
  SysState.mk (fun _ => false) (fun _ => false) (fun _ => true) (fun _ => true) []

/-- An authenticated mount request for volume `vault` carrying a password. -/
def reqMountVault : VRequest :=
  VRequest.mk "POST" "/mount/vault" "/mount/vault" (some "s1") (some "100") (some "ab")
    [("password", "p")]

/-- A fresh limiter record. -/
def limFresh : LimiterState := LimiterState.mk 0 0

/-- An authenticated unmount request for volume `vault`. -/
def reqUnmountVault : VRequest :=
  VRequest.mk "POST" "/unmount/vault" "/unmount/vault" (some "s1") (some "100") (some "ab") []

/-- A raw mount body with interior whitespace, as a client may send it. -/
def rawBodyPw : String := "\x7b\"password\": \"p\"\x7d"

/-- The mount request whose parsed body is the object parsed from
`rawBodyPw`. -/
def reqMountPw : VRequest :=
  VRequest.mk "POST" "/mount/vault" "/mount/vault" (some "s2") (some "100") (some "ab")
    [("password", "p")]

/-- Oracle behaving like Ed25519 verification when `s2` is the signature the
client made with key `ab` over the spec's canonical message for `rawBodyPw`:
it accepts exactly that key, message and signature. -/
def oracleSpecMsgPw : String → String → String → Except Unit Bool := fun pk msg sig =>
  Except.ok (pk = "ab" && sig = "s2" &&
    msg = specCanonicalMessage idHash "POST" "/mount/vault" "100" rawBodyPw)

/-! ### Helper lemmas about `verifySignature` -/

/-- With the skip-list not matching, keys configured and all three headers
present and non-empty, `verifySignature` is the catch-wrapped try block. -/
theorem verifySignature_core (sha : String → String)
    (edV : String → String → String → Except Unit Bool)
    (env : AuthEnv) (r : VRequest) (sig ts pk : String)
    (hskip : skipAuth r = false) (hkeys : env.allowedPublicKeys ≠ [])
    (hsig : r.hSignature = some sig) (hts : r.hTimestamp = some ts)
    (hpk : r.hPublicKey = some pk)
    (hs0 : sig ≠ "") (ht0 : ts ≠ "") (hp0 : pk ≠ "") :
    verifySignature sha edV env r =
      (match verifyTry sha edV env r sig ts pk with
        | .ok resp => resp
        | .error _ => .reject 401 "Signature verification failed") := by
  simp [verifySignature, hskip, hkeys, hsig, hts, hpk, hs0, ht0, hp0]

/-- A request missing a header (or presenting it empty) is answered with the
dedicated missing-headers rejection. -/
theorem verifySignature_missing (sha : String → String)
    (edV : String → String → String → Except Unit Bool)
    (env : AuthEnv) (r : VRequest)
    (hskip : skipAuth r = false) (hkeys : env.allowedPublicKeys ≠ [])
    (hmiss : falsyHeader r.hSignature = true ∨ falsyHeader r.hTimestamp = true ∨
      falsyHeader r.hPublicKey = true) :
    verifySignature sha edV env r = .reject 401 "Missing authentication headers" := by
  rcases hs : r.hSignature with _ | sig
  · simp [verifySignature, hskip, hkeys, hs]
  · rcases ht : r.hTimestamp with _ | ts
    · simp [verifySignature, hskip, hkeys, hs, ht]
    · rcases hp : r.hPublicKey with _ | pk
      · simp [verifySignature, hskip, hkeys, hs, ht, hp]
      · simp only [hs, ht, hp, falsyHeader, decide_eq_true_eq] at hmiss
        rcases hmiss with h | h | h <;>
          simp [verifySignature, hskip, hkeys, hs, ht, hp, h]

/-- The try block rejects an untrusted key. -/
theorem verifyTry_notMember (sha : String → String)
    (edV : String → String → String → Except Unit Bool)
    (env : AuthEnv) (r : VRequest) (sig ts pk : String)
    (h : toLowerStr pk ∉ env.allowedPublicKeys) :
    verifyTry sha edV env r sig ts pk = .ok (.reject 401 "Authentication failed") := by
  simp [verifyTry, h]

/-- The try block rejects a timestamp `parseInt` cannot read. -/
theorem verifyTry_tsNone (sha : String → String)
    (edV : String → String → String → Except Unit Bool)
    (env : AuthEnv) (r : VRequest) (sig ts pk : String)
    (h : parseIntJS ts = none) :
    verifyTry sha edV env r sig ts pk = .ok (.reject 401 "Authentication failed") := by
  by_cases hmem : toLowerStr pk ∈ env.allowedPublicKeys
  · simp [verifyTry, hmem, h]
  · simp [verifyTry, hmem]

/-- The try block rejects a timestamp further than 300 seconds from server
time. -/
theorem verifyTry_tsFar (sha : String → String)
    (edV : String → String → String → Except Unit Bool)
    (env : AuthEnv) (r : VRequest) (sig ts pk : String) (t : Int)
    (hp : parseIntJS ts = some t) (h : 300 < (env.now - t).natAbs) :
    verifyTry sha edV env r sig ts pk = .ok (.reject 401 "Authentication failed") := by
  by_cases hmem : toLowerStr pk ∈ env.allowedPublicKeys
  · simp [verifyTry, hmem, hp, h]
  · simp [verifyTry, hmem]

/-- With a trusted key and a fresh timestamp, the try block is the Ed25519
check over the canonical message. -/
theorem verifyTry_check (sha : String → String)
    (edV : String → String → String → Except Unit Bool)
    (env : AuthEnv) (r : VRequest) (sig ts pk : String) (t : Int)
    (hmem : toLowerStr pk ∈ env.allowedPublicKeys)
    (hp : parseIntJS ts = some t) (h : (env.now - t).natAbs ≤ 300) :
    verifyTry sha edV env r sig ts pk =
      (match edV pk (canonicalMessage sha r ts) sig with
        | .ok true => .ok .next
        | .ok false => .ok (.reject 401 "Authentication failed")
        | .error e => .error e) := by
  cases hedv : edV pk (canonicalMessage sha r ts) sig with
  | ok b =>
    cases b <;> (simp [verifyTry, hmem, hp, Nat.not_lt.mpr h, hedv]; rfl)
  | error e => (simp [verifyTry, hmem, hp, Nat.not_lt.mpr h, hedv]; rfl)

section VerifyDerived

variable (sha : String → String) (edV : String → String → String → Except Unit Bool)
variable (env : AuthEnv) (r : VRequest) (sig ts pk : String)

/-- Acceptance: trusted key, fresh timestamp, and a verifying signature make
the middleware call `next()`. -/
theorem verify_accept (t : Int)
    (hskip : skipAuth r = false) (hkeys : env.allowedPublicKeys ≠ [])
    (hsig : r.hSignature = some sig) (hts : r.hTimestamp = some ts)
    (hpk : r.hPublicKey = some pk)
    (hs0 : sig ≠ "") (ht0 : ts ≠ "") (hp0 : pk ≠ "")
    (hmem : toLowerStr pk ∈ env.allowedPublicKeys)
    (hp : parseIntJS ts = some t) (hfresh : (env.now - t).natAbs ≤ 300)
    (hed : edV pk (canonicalMessage sha r ts) sig = .ok true) :
    verifySignature sha edV env r = .next := by
  rw [verifySignature_core sha edV env r sig ts pk hskip hkeys hsig hts hpk hs0 ht0 hp0,
    verifyTry_check sha edV env r sig ts pk t hmem hp hfresh, hed]

/-- Rejection on an untrusted key. -/
theorem verify_rejectKey
    (hskip : skipAuth r = false) (hkeys : env.allowedPublicKeys ≠ [])
    (hsig : r.hSignature = some sig) (hts : r.hTimestamp = some ts)
    (hpk : r.hPublicKey = some pk)
    (hs0 : sig ≠ "") (ht0 : ts ≠ "") (hp0 : pk ≠ "")
    (hmem : toLowerStr pk ∉ env.allowedPublicKeys) :
    verifySignature sha edV env r = .reject 401 "Authentication failed" := by
  rw [verifySignature_core sha edV env r sig ts pk hskip hkeys hsig hts hpk hs0 ht0 hp0,
    verifyTry_notMember sha edV env r sig ts pk hmem]

/-- Rejection on a timestamp `parseInt` cannot read. -/
theorem verify_rejectTsNone
    (hskip : skipAuth r = false) (hkeys : env.allowedPublicKeys ≠ [])
    (hsig : r.hSignature = some sig) (hts : r.hTimestamp = some ts)
    (hpk : r.hPublicKey = some pk)
    (hs0 : sig ≠ "") (ht0 : ts ≠ "") (hp0 : pk ≠ "")
    (hp : parseIntJS ts = none) :
    verifySignature sha edV env r = .reject 401 "Authentication failed" := by
  rw [verifySignature_core sha edV env r sig ts pk hskip hkeys hsig hts hpk hs0 ht0 hp0,
    verifyTry_tsNone sha edV env r sig ts pk hp]

/-- Rejection on a timestamp out of the 300-second window. -/
theorem verify_rejectTsFar (t : Int)
    (hskip : skipAuth r = false) (hkeys : env.allowedPublicKeys ≠ [])
    (hsig : r.hSignature = some sig) (hts : r.hTimestamp = some ts)
    (hpk : r.hPublicKey = some pk)
    (hs0 : sig ≠ "") (ht0 : ts ≠ "") (hp0 : pk ≠ "")
    (hp : parseIntJS ts = some t) (hfar : 300 < (env.now - t).natAbs) :
    verifySignature sha edV env r = .reject 401 "Authentication failed" := by
  rw [verifySignature_core sha edV env r sig ts pk hskip hkeys hsig hts hpk hs0 ht0 hp0,
    verifyTry_tsFar sha edV env r sig ts pk t hp hfar]

/-- Rejection on a signature the Ed25519 check refuses. -/
theorem verify_rejectBadSig (t : Int)
    (hskip : skipAuth r = false) (hkeys : env.allowedPublicKeys ≠ [])
    (hsig : r.hSignature = some sig) (hts : r.hTimestamp = some ts)
    (hpk : r.hPublicKey = some pk)
    (hs0 : sig ≠ "") (ht0 : ts ≠ "") (hp0 : pk ≠ "")
    (hmem : toLowerStr pk ∈ env.allowedPublicKeys)
    (hp : parseIntJS ts = some t) (hfresh : (env.now - t).natAbs ≤ 300)
    (hed : edV pk (canonicalMessage sha r ts) sig = .ok false) :
    verifySignature sha edV env r = .reject 401 "Authentication failed" := by
  rw [verifySignature_core sha edV env r sig ts pk hskip hkeys hsig hts hpk hs0 ht0 hp0,
    verifyTry_check sha edV env r sig ts pk t hmem hp hfresh, hed]

/-- Inversion: `next()` is only reached with a trusted key, a readable fresh
timestamp, and an accepted signature. -/
theorem verify_next_inversion
    (hskip : skipAuth r = false) (hkeys : env.allowedPublicKeys ≠ [])
    (hsig : r.hSignature = some sig) (hts : r.hTimestamp = some ts)
    (hpk : r.hPublicKey = some pk)
    (hs0 : sig ≠ "") (ht0 : ts ≠ "") (hp0 : pk ≠ "")
    (hnext : verifySignature sha edV env r = .next) :
    toLowerStr pk ∈ env.allowedPublicKeys ∧
      ∃ t, parseIntJS ts = some t ∧ (env.now - t).natAbs ≤ 300 ∧
        edV pk (canonicalMessage sha r ts) sig = .ok true := by
  by_cases hmem : toLowerStr pk ∈ env.allowedPublicKeys
  · cases hp : parseIntJS ts with
    | none =>
      rw [verify_rejectTsNone sha edV env r sig ts pk hskip hkeys hsig hts hpk hs0 ht0 hp0 hp]
        at hnext
      exact absurd hnext (by simp)
    | some t =>
      by_cases hfresh : (env.now - t).natAbs ≤ 300
      · refine ⟨hmem, t, rfl, hfresh, ?_⟩
        cases hedv : edV pk (canonicalMessage sha r ts) sig with
        | ok b =>
          cases b
          · rw [verify_rejectBadSig sha edV env r sig ts pk t hskip hkeys hsig hts hpk
              hs0 ht0 hp0 hmem hp hfresh hedv] at hnext
            exact absurd hnext (by simp)
          · rfl
        | error e =>
          rw [verifySignature_core sha edV env r sig ts pk hskip hkeys hsig hts hpk
            hs0 ht0 hp0, verifyTry_check sha edV env r sig ts pk t hmem hp hfresh, hedv]
            at hnext
          exact absurd hnext (by simp)
      · rw [verify_rejectTsFar sha edV env r sig ts pk t hskip hkeys hsig hts hpk hs0 ht0 hp0
          hp (Nat.lt_of_not_le hfresh)] at hnext
        exact absurd hnext (by simp)
  · rw [verify_rejectKey sha edV env r sig ts pk hskip hkeys hsig hts hpk hs0 ht0 hp0 hmem]
      at hnext
    exact absurd hnext (by simp)

end VerifyDerived

/-! ### Helper lemmas about the limiter pipelines -/

/-- Inside an unexpired window and under the limit, arrival just counts the
hit. -/
theorem limiterEnter_active (cfg : LimiterConfig) (nowMs : Int) (st : LimiterState)
    (hwin : nowMs < st.resetTime) (hlim : st.hits + 1 ≤ cfg.maxHits) :
    limiterEnter cfg nowMs st = (LimiterState.mk st.resetTime (st.hits + 1), false) := by
  simp [limiterEnter, not_le.mpr hwin, Nat.not_lt.mpr hlim]

/-- A response with a 400-or-above status stays counted. -/
theorem limiterExit_fail (st : LimiterState) (s : Nat) (h : 400 ≤ s) :
    limiterExit st s = st := by
  simp [limiterExit, Nat.not_lt.mpr h]

/-- A rejection from `verifySignature` travels back through an unexpired,
under-limit auth limiter leaving the hit counted. -/
theorem apiPipeline_of_reject (sha : String → String)
    (edV : String → String → String → Except Unit Bool)
    (env : AuthEnv) (r : VRequest) (nowMs : Int) (authSt : LimiterState)
    (route : VRequest → Nat) (s : Nat) (m : String)
    (hv : verifySignature sha edV env r = .reject s m) (hs400 : 400 ≤ s)
    (hwin : nowMs < authSt.resetTime)
    (hlim : authSt.hits + 1 ≤ authLimiterConfig.maxHits) :
    apiPipeline sha edV env nowMs authSt r route =
      (s, LimiterState.mk authSt.resetTime (authSt.hits + 1)) := by
  simp [apiPipeline, limiterEnter_active authLimiterConfig nowMs authSt hwin hlim, hv,
    outcomeStatus, limiterExit_fail _ _ hs400]

/-- A request rejected by `verifySignature` never reaches the route-level
mount limiter or the handler: both are left untouched. -/
theorem mountPipeline_auth_reject (sha : String → String)
    (edV : String → String → String → Except Unit Bool)
    (env : AuthEnv) (nowMs : Int) (authSt mountSt : LimiterState)
    (sys : SysState) (r : VRequest) (name : String) (s : Nat) (m : String)
    (hv : verifySignature sha edV env r = .reject s m) :
    (mountPipeline sha edV env nowMs authSt mountSt sys r name).2.2.1 = mountSt ∧
      (mountPipeline sha edV env nowMs authSt mountSt sys r name).2.2.2 = sys := by
  by_cases hd : (limiterEnter authLimiterConfig nowMs authSt).2
  · simp [mountPipeline, hd]
  · simp [mountPipeline, hd, hv]

/-- A request that passes verification and reaches the mount handler with a
failing outcome leaves that failure counted against the mount limiter. -/
theorem mountPipeline_handler_fail (sha : String → String)
    (edV : String → String → String → Except Unit Bool)
    (env : AuthEnv) (nowMs : Int) (authSt mountSt : LimiterState)
    (sys : SysState) (r : VRequest) (name : String)
    (hv : verifySignature sha edV env r = .next)
    (hawin : nowMs < authSt.resetTime)
    (halim : authSt.hits + 1 ≤ authLimiterConfig.maxHits)
    (hmwin : nowMs < mountSt.resetTime)
    (hmlim : mountSt.hits + 1 ≤ mountLimiterConfig.maxHits)
    (hfail : 400 ≤ mountRespStatus (mountHandler sys name (bodyPassword r)).1) :
    mountPipeline sha edV env nowMs authSt mountSt sys r name =
      (mountRespStatus (mountHandler sys name (bodyPassword r)).1,
        LimiterState.mk authSt.resetTime (authSt.hits + 1),
        LimiterState.mk mountSt.resetTime (mountSt.hits + 1),
        (mountHandler sys name (bodyPassword r)).2) := by
  simp [mountPipeline, limiterEnter_active authLimiterConfig nowMs authSt hawin halim,
    limiterEnter_active mountLimiterConfig nowMs mountSt hmwin hmlim, hv,
    limiterExit_fail _ _ hfail]

/-- A request rejected by `verifySignature` never reaches the route-level
mount limiter or the unmount handler: both are left untouched. -/
theorem unmountPipeline_auth_reject (sha : String → String)
    (edV : String → String → String → Except Unit Bool)
    (env : AuthEnv) (nowMs : Int) (authSt mountSt : LimiterState)
    (sys : SysState) (r : VRequest) (name : String) (s : Nat) (m : String)
    (hv : verifySignature sha edV env r = .reject s m) :
    (unmountPipeline sha edV env nowMs authSt mountSt sys r name).2.2.1 = mountSt ∧
      (unmountPipeline sha edV env nowMs authSt mountSt sys r name).2.2.2 = sys := by
  by_cases hd : (limiterEnter authLimiterConfig nowMs authSt).2
  · simp [unmountPipeline, hd]
  · simp [unmountPipeline, hd, hv]

/-- A request that passes verification and reaches the unmount handler with
a failing outcome leaves that failure counted against the mount limiter. -/
theorem unmountPipeline_handler_fail (sha : String → String)
    (edV : String → String → String → Except Unit Bool)
    (env : AuthEnv) (nowMs : Int) (authSt mountSt : LimiterState)
    (sys : SysState) (r : VRequest) (name : String)
    (hv : verifySignature sha edV env r = .next)
    (hawin : nowMs < authSt.resetTime)
    (halim : authSt.hits + 1 ≤ authLimiterConfig.maxHits)
    (hmwin : nowMs < mountSt.resetTime)
    (hmlim : mountSt.hits + 1 ≤ mountLimiterConfig.maxHits)
    (hfail : 400 ≤ mountRespStatus (unmountHandler sys name).1) :
    unmountPipeline sha edV env nowMs authSt mountSt sys r name =
      (mountRespStatus (unmountHandler sys name).1,
        LimiterState.mk authSt.resetTime (authSt.hits + 1),
        LimiterState.mk mountSt.resetTime (mountSt.hits + 1),
        (unmountHandler sys name).2) := by
  simp [unmountPipeline, limiterEnter_active authLimiterConfig nowMs authSt hawin halim,
    limiterEnter_active mountLimiterConfig nowMs mountSt hmwin hmlim, hv,
    limiterExit_fail _ _ hfail]

/-! ### Claim theorems -/

/-- Claim C1, as stated, is false at a concrete input: the client sends the
body bytes of `rawBodyEx` (containing a space), which parse to the body of
`reqMountEx`; the presented signature `s1` is valid (per the oracle) for the
claimed key over the canonical message built from the exact body bytes, yet
the verifier rejects the request because it hashes `JSON.stringify(req.body)`
— the re-serialized parsed body — instead of the bytes the client sent. -/
theorem C1_counterexample :
    jsonParseFlat rawBodyEx = some reqMountEx.body ∧
    oracleSpecMsg "ab"
      (specCanonicalMessage idHash reqMountEx.method reqMountEx.originalUrl "100" rawBodyEx)
      "s1" = .ok true ∧
    verifySignature idHash oracleSpecMsg envAB reqMountEx =
      .reject 401 "Authentication failed" :=
  ⟨by decide, rfl, by decide⟩

/-- Claim C1 amended: the verifier reconstructs
`METHOD:PATH_WITH_QUERY:TIMESTAMP:BODYHASH` where BODYHASH is the digest of
`JSON.stringify` of the parsed request body when that body is a non-empty
object, and the digest of the empty string otherwise; once the header, key
and freshness checks pass, verification succeeds exactly when the presented
signature is valid by the claimed key over that byte string. -/
theorem C1_canonical_message (sha : String → String)
    (edV : String → String → String → Except Unit Bool)
    (env : AuthEnv) (r : VRequest) (sig ts pk : String) (t : Int)
    (hskip : skipAuth r = false) (hkeys : env.allowedPublicKeys ≠ [])
    (hsig : r.hSignature = some sig) (hts : r.hTimestamp = some ts)
    (hpk : r.hPublicKey = some pk)
    (hs0 : sig ≠ "") (ht0 : ts ≠ "") (hp0 : pk ≠ "")
    (hmem : toLowerStr pk ∈ env.allowedPublicKeys)
    (hp : parseIntJS ts = some t) (hfresh : (env.now - t).natAbs ≤ 300) :
    (verifySignature sha edV env r = .next ↔
      edV pk (canonicalMessage sha r ts) sig = .ok true) ∧
    canonicalMessage sha r ts =
      r.method ++ ":" ++ r.originalUrl ++ ":" ++ ts ++ ":" ++
        sha (if r.body = [] then "" else jsonStringifyFlat r.body) := by
  refine ⟨⟨fun hnext => ?_, fun hed => ?_⟩, rfl⟩
  · obtain ⟨-, t', hp', -, hed⟩ :=
      verify_next_inversion sha edV env r sig ts pk hskip hkeys hsig hts hpk hs0 ht0 hp0 hnext
    exact hed
  · exact verify_accept sha edV env r sig ts pk t hskip hkeys hsig hts hpk hs0 ht0 hp0
      hmem hp hfresh hed

/-- Claim C1 amended, witnessed at a concrete accepted request. -/
theorem C1_canonical_message_witness :
    verifySignature idHash oracleTrue envAB reqMountVault = .next :=
  ((C1_canonical_message idHash oracleTrue envAB reqMountVault "s1" "100" "ab" 100
    (by decide) (by decide) rfl rfl rfl (by decide) (by decide) (by decide)
    (by decide) rfl (by decide)).1).mpr rfl

/-- Claim C2, as stated, is false at a concrete input: a request missing all
three authentication headers is rejected with 401, but the rejection IS
counted by the auth-failure limiter (`skipSuccessfulRequests` only uncounts
responses with status below 400), so the counter reaches 1 after one such
request and the 21st header-less request from the same client is denied
with 429. -/
theorem C2_counterexample :
    apiPipeline idHash oracleTrue envAB 0 limFresh reqNoHeaders routeOk =
      (401, LimiterState.mk 900000 1) ∧
    (apiPipeline idHash oracleTrue envAB 0 (malformedTick^[20] limFresh)
      reqNoHeaders routeOk).1 = 429 := by
  constructor
  · decide
  · set_option maxRecDepth 10000 in decide

/-- Claim C2 amended: a request missing any authentication header (or
presenting it empty) is rejected with 401 and IS counted against the
client's auth-failure window: within an unexpired window under the limit the
counter increments by one. -/
theorem C2_missing_headers_counted (sha : String → String)
    (edV : String → String → String → Except Unit Bool)
    (env : AuthEnv) (r : VRequest) (route : VRequest → Nat)
    (nowMs : Int) (authSt : LimiterState)
    (hskip : skipAuth r = false) (hkeys : env.allowedPublicKeys ≠ [])
    (hmiss : falsyHeader r.hSignature = true ∨ falsyHeader r.hTimestamp = true ∨
      falsyHeader r.hPublicKey = true)
    (hwin : nowMs < authSt.resetTime) (hlim : authSt.hits + 1 ≤ 20) :
    apiPipeline sha edV env nowMs authSt r route =
      (401, LimiterState.mk authSt.resetTime (authSt.hits + 1)) :=
  apiPipeline_of_reject sha edV env r nowMs authSt route 401 "Missing authentication headers"
    (verifySignature_missing sha edV env r hskip hkeys hmiss) (by norm_num) hwin hlim

/-- Claim C2 amended, witnessed: a request with no headers against a counter
standing at 3 inside an open window leaves the counter at 4. -/
theorem C2_missing_headers_counted_witness :
    apiPipeline idHash oracleTrue envAB 0 (LimiterState.mk 10 3) reqNoHeaders routeOk =
      (401, LimiterState.mk 10 4) :=
  C2_missing_headers_counted idHash oracleTrue envAB reqNoHeaders routeOk 0
    (LimiterState.mk 10 3) (by decide) (by decide) (Or.inl rfl) (by decide) (by decide)

/-- Claim C3, as stated, is false at a concrete input: a fully authenticated
mount request for an already-active volume draws the 400 "Already mounted"
idempotency response, and a fully authenticated unmount request for an
inactive volume draws the 400 "Mount is not active" idempotency response,
and both outcomes ARE recorded against the mount limiter (its counter moves
from 0 to 1 in each case). -/
theorem C3_counterexample :
    (mountHandler sysAllActive "vault" (bodyPassword reqMountVault)).1 =
      .clientError "Already mounted" ∧
    (mountPipeline idHash oracleTrue envAB 0 limFresh limFresh sysAllActive
      reqMountVault "vault").1 = 400 ∧
    (mountPipeline idHash oracleTrue envAB 0 limFresh limFresh sysAllActive
      reqMountVault "vault").2.2.1.hits = 1 ∧
    (unmountHandler sysFresh "vault").1 = .clientError "Mount is not active" ∧
    (unmountPipeline idHash oracleTrue envAB 0 limFresh limFresh sysFresh
      reqUnmountVault "vault").1 = 400 ∧
    (unmountPipeline idHash oracleTrue envAB 0 limFresh limFresh sysFresh
      reqUnmountVault "vault").2.2.1.hits = 1 :=
  ⟨by decide, by decide, by decide, by decide, by decide, by decide⟩

/-- Claim C3 amended: every mount or unmount request that reaches its
handler and draws a non-2xx outcome — the 400 idempotency responses
"already mounted" and "not active" included — is recorded against the mount
limiter class, while an authentication failure on either endpoint is
rejected before the route-level mount limiter runs and is not recorded
against it. -/
theorem C3_mount_class_records (sha : String → String)
    (edV : String → String → String → Except Unit Bool)
    (env : AuthEnv) (nowMs : Int) (authSt mountSt : LimiterState)
    (sys : SysState) (r : VRequest) (name : String) :
    (∀ s m, verifySignature sha edV env r = .reject s m →
      (mountPipeline sha edV env nowMs authSt mountSt sys r name).2.2.1 = mountSt ∧
      (unmountPipeline sha edV env nowMs authSt mountSt sys r name).2.2.1 = mountSt) ∧
    (verifySignature sha edV env r = .next →
      nowMs < authSt.resetTime → authSt.hits + 1 ≤ 20 →
      nowMs < mountSt.resetTime → mountSt.hits + 1 ≤ 10 →
      (400 ≤ mountRespStatus (mountHandler sys name (bodyPassword r)).1 →
        (mountPipeline sha edV env nowMs authSt mountSt sys r name).2.2.1 =
          LimiterState.mk mountSt.resetTime (mountSt.hits + 1)) ∧
      (400 ≤ mountRespStatus (unmountHandler sys name).1 →
        (unmountPipeline sha edV env nowMs authSt mountSt sys r name).2.2.1 =
          LimiterState.mk mountSt.resetTime (mountSt.hits + 1))) := by
  constructor
  · intro s m hv
    exact ⟨(mountPipeline_auth_reject sha edV env nowMs authSt mountSt sys r name s m hv).1,
      (unmountPipeline_auth_reject sha edV env nowMs authSt mountSt sys r name s m hv).1⟩
  · intro hv hawin halim hmwin hmlim
    constructor
    · intro hfail
      rw [mountPipeline_handler_fail sha edV env nowMs authSt mountSt sys r name hv
        hawin halim hmwin hmlim hfail]
    · intro hfail
      rw [unmountPipeline_handler_fail sha edV env nowMs authSt mountSt sys r name hv
        hawin halim hmwin hmlim hfail]

/-- Claim C3 amended, witnessed: an auth failure (internal verification
error) leaves the mount counter untouched on both endpoints; an
authenticated already-mounted mount request and an authenticated not-active
unmount request each move it from 0 to 1. -/
theorem C3_mount_class_records_witness :
    (mountPipeline idHash oracleThrow envAB 0 (LimiterState.mk 10 0) (LimiterState.mk 10 0)
      sysAllActive reqMountVault "vault").2.2.1 = LimiterState.mk 10 0 ∧
    (unmountPipeline idHash oracleThrow envAB 0 (LimiterState.mk 10 0) (LimiterState.mk 10 0)
      sysFresh reqUnmountVault "vault").2.2.1 = LimiterState.mk 10 0 ∧
    (mountPipeline idHash oracleTrue envAB 0 (LimiterState.mk 10 0) (LimiterState.mk 10 0)
      sysAllActive reqMountVault "vault").2.2.1 = LimiterState.mk 10 1 ∧
    (unmountPipeline idHash oracleTrue envAB 0 (LimiterState.mk 10 0) (LimiterState.mk 10 0)
      sysFresh reqUnmountVault "vault").2.2.1 = LimiterState.mk 10 1 :=
  ⟨((C3_mount_class_records idHash oracleThrow envAB 0 (LimiterState.mk 10 0)
      (LimiterState.mk 10 0) sysAllActive reqMountVault "vault").1 401
      "Signature verification failed" (by decide)).1,
   ((C3_mount_class_records idHash oracleThrow envAB 0 (LimiterState.mk 10 0)
      (LimiterState.mk 10 0) sysFresh reqUnmountVault "vault").1 401
      "Signature verification failed" (by decide)).2,
   ((C3_mount_class_records idHash oracleTrue envAB 0 (LimiterState.mk 10 0)
      (LimiterState.mk 10 0) sysAllActive reqMountVault "vault").2 (by decide)
      (by decide) (by decide) (by decide) (by decide)).1 (by decide),
   ((C3_mount_class_records idHash oracleTrue envAB 0 (LimiterState.mk 10 0)
      (LimiterState.mk 10 0) sysFresh reqUnmountVault "vault").2 (by decide)
      (by decide) (by decide) (by decide) (by decide)).2 (by decide)⟩

/-- Claim C4, as stated, is false at a concrete input: a request rejected by
the missing-headers sub-check and one rejected by the untrusted-key sub-check
draw responses with different bodies, so the pair of responses is not the
same and the body reveals that the first failure was missing headers. -/
theorem C4_counterexample :
    verifySignature idHash oracleTrue envAB (reqListH none (some "100") (some "ab")) =
      .reject 401 "Missing authentication headers" ∧
    verifySignature idHash oracleTrue envAB (reqListH (some "s1") (some "100") (some "cd")) =
      .reject 401 "Authentication failed" ∧
    ApiResponse.reject 401 "Missing authentication headers" ≠
      ApiResponse.reject 401 "Authentication failed" :=
  ⟨by decide, by decide, by decide⟩

/-- Claim C4 amended: among the untrusted-key, stale-or-unreadable-timestamp
and bad-signature sub-checks the response is literally identical — 401 with
body "Authentication failed" — so any pair of requests rejected by different
sub-checks among these three draws the same response; the missing-headers
rejection shares the 401 status but has a distinct body. -/
theorem C4_uniform_core_rejection (sha : String → String)
    (edV : String → String → String → Except Unit Bool)
    (env : AuthEnv) (r : VRequest) (sig ts pk : String)
    (hskip : skipAuth r = false) (hkeys : env.allowedPublicKeys ≠ [])
    (hsig : r.hSignature = some sig) (hts : r.hTimestamp = some ts)
    (hpk : r.hPublicKey = some pk)
    (hs0 : sig ≠ "") (ht0 : ts ≠ "") (hp0 : pk ≠ "")
    (hfail : toLowerStr pk ∉ env.allowedPublicKeys ∨ parseIntJS ts = none ∨
      (∃ t, parseIntJS ts = some t ∧ 300 < (env.now - t).natAbs) ∨
      edV pk (canonicalMessage sha r ts) sig = .ok false) :
    verifySignature sha edV env r = .reject 401 "Authentication failed" := by
  rcases hfail with hmem | hp | ⟨t, hp, hfar⟩ | hed
  · exact verify_rejectKey sha edV env r sig ts pk hskip hkeys hsig hts hpk hs0 ht0 hp0 hmem
  · exact verify_rejectTsNone sha edV env r sig ts pk hskip hkeys hsig hts hpk hs0 ht0 hp0 hp
  · exact verify_rejectTsFar sha edV env r sig ts pk t hskip hkeys hsig hts hpk hs0 ht0 hp0
      hp hfar
  · by_cases hmem : toLowerStr pk ∈ env.allowedPublicKeys
    · cases hp : parseIntJS ts with
      | none =>
        exact verify_rejectTsNone sha edV env r sig ts pk hskip hkeys hsig hts hpk
          hs0 ht0 hp0 hp
      | some t =>
        by_cases hfresh : (env.now - t).natAbs ≤ 300
        · exact verify_rejectBadSig sha edV env r sig ts pk t hskip hkeys hsig hts hpk
            hs0 ht0 hp0 hmem hp hfresh hed
        · exact verify_rejectTsFar sha edV env r sig ts pk t hskip hkeys hsig hts hpk
            hs0 ht0 hp0 hp (Nat.lt_of_not_le hfresh)
    · exact verify_rejectKey sha edV env r sig ts pk hskip hkeys hsig hts hpk hs0 ht0 hp0 hmem

/-- Claim C4 amended, witnessed: an untrusted-key rejection and a
bad-signature rejection both draw exactly 401 "Authentication failed". -/
theorem C4_uniform_core_rejection_witness :
    verifySignature idHash oracleTrue envAB (reqListH (some "s2") (some "100") (some "cd")) =
      .reject 401 "Authentication failed" ∧
    verifySignature idHash oracleFalse envAB (reqListH (some "s2") (some "100") (some "ab")) =
      .reject 401 "Authentication failed" :=
  ⟨C4_uniform_core_rejection idHash oracleTrue envAB
      (reqListH (some "s2") (some "100") (some "cd")) "s2" "100" "cd"
      (by decide) (by decide) rfl rfl rfl (by decide) (by decide) (by decide)
      (Or.inl (by decide)),
   C4_uniform_core_rejection idHash oracleFalse envAB
      (reqListH (some "s2") (some "100") (some "ab")) "s2" "100" "ab"
      (by decide) (by decide) rfl rfl rfl (by decide) (by decide) (by decide)
      (Or.inr (Or.inr (Or.inr rfl)))⟩

/-- Claim C5, as stated, is false at a concrete input, for the same reason
as claim C1: its acceptance clause promises acceptance for a valid signature
over THE canonical message — per the spec, BODYHASH over the exact body
bytes as sent — yet here a request with a trusted key, a timestamp exactly
at server time, and a signature valid (per the oracle) over that message is
rejected, because the verifier signs over `JSON.stringify(req.body)` and the
raw body carries an interior space. -/
theorem C5_counterexample :
    jsonParseFlat rawBodyPw = some reqMountPw.body ∧
    oracleSpecMsgPw "ab"
      (specCanonicalMessage idHash reqMountPw.method reqMountPw.originalUrl "100" rawBodyPw)
      "s2" = .ok true ∧
    parseIntJS "100" = some 100 ∧
    (envAB.now - 100).natAbs ≤ 300 ∧
    toLowerStr "ab" ∈ envAB.allowedPublicKeys ∧
    verifySignature idHash oracleSpecMsgPw envAB reqMountPw =
      .reject 401 "Authentication failed" :=
  ⟨by decide, rfl, rfl, by decide, by decide, by decide⟩

/-- Claim C5 amended: verification succeeds only if `parseInt` reads the
timestamp header and `|server_time - claimed_timestamp| <= 300`; an
unreadable or out-of-window timestamp draws the 401 authentication failure
and, inside an open under-limit window, increments the auth-failure counter;
a request with a trusted key, a fresh timestamp and an accepted signature
over the CODE's canonical message — whose BODYHASH digests `JSON.stringify`
of the parsed body, not the raw body bytes (see claim C1) — passes, and each
single deviation (untrusted key, stale timestamp, refused signature) flips
the outcome to rejection. -/
theorem C5_timestamp_freshness (sha : String → String)
    (edV : String → String → String → Except Unit Bool)
    (env : AuthEnv) (r : VRequest) (sig ts pk : String)
    (hskip : skipAuth r = false) (hkeys : env.allowedPublicKeys ≠ [])
    (hsig : r.hSignature = some sig) (hts : r.hTimestamp = some ts)
    (hpk : r.hPublicKey = some pk)
    (hs0 : sig ≠ "") (ht0 : ts ≠ "") (hp0 : pk ≠ "") :
    (verifySignature sha edV env r = .next →
      ∃ t, parseIntJS ts = some t ∧ (env.now - t).natAbs ≤ 300) ∧
    (parseIntJS ts = none →
      verifySignature sha edV env r = .reject 401 "Authentication failed") ∧
    (∀ t, parseIntJS ts = some t → 300 < (env.now - t).natAbs →
      verifySignature sha edV env r = .reject 401 "Authentication failed") ∧
    (∀ t, parseIntJS ts = some t → (env.now - t).natAbs ≤ 300 →
      toLowerStr pk ∈ env.allowedPublicKeys →
      edV pk (canonicalMessage sha r ts) sig = .ok true →
      verifySignature sha edV env r = .next) ∧
    (toLowerStr pk ∉ env.allowedPublicKeys →
      verifySignature sha edV env r = .reject 401 "Authentication failed") ∧
    (∀ t, parseIntJS ts = some t → (env.now - t).natAbs ≤ 300 →
      toLowerStr pk ∈ env.allowedPublicKeys →
      edV pk (canonicalMessage sha r ts) sig = .ok false →
      verifySignature sha edV env r = .reject 401 "Authentication failed") ∧
    (∀ (nowMs : Int) (authSt : LimiterState) (route : VRequest → Nat),
      nowMs < authSt.resetTime → authSt.hits + 1 ≤ 20 →
      (parseIntJS ts = none ∨ ∃ t, parseIntJS ts = some t ∧ 300 < (env.now - t).natAbs) →
      apiPipeline sha edV env nowMs authSt r route =
        (401, LimiterState.mk authSt.resetTime (authSt.hits + 1))) := by
  refine ⟨fun hnext => ?_, fun hp => ?_, fun t hp hfar => ?_, fun t hp hfresh hmem hed => ?_,
    fun hmem => ?_, fun t hp hfresh hmem hed => ?_, fun nowMs authSt route hwin hlim hbad => ?_⟩
  · obtain ⟨-, t, hp, hfresh, -⟩ :=
      verify_next_inversion sha edV env r sig ts pk hskip hkeys hsig hts hpk hs0 ht0 hp0 hnext
    exact ⟨t, hp, hfresh⟩
  · exact verify_rejectTsNone sha edV env r sig ts pk hskip hkeys hsig hts hpk hs0 ht0 hp0 hp
  · exact verify_rejectTsFar sha edV env r sig ts pk t hskip hkeys hsig hts hpk hs0 ht0 hp0
      hp hfar
  · exact verify_accept sha edV env r sig ts pk t hskip hkeys hsig hts hpk hs0 ht0 hp0
      hmem hp hfresh hed
  · exact verify_rejectKey sha edV env r sig ts pk hskip hkeys hsig hts hpk hs0 ht0 hp0 hmem
  · exact verify_rejectBadSig sha edV env r sig ts pk t hskip hkeys hsig hts hpk hs0 ht0 hp0
      hmem hp hfresh hed
  · have hv : verifySignature sha edV env r = .reject 401 "Authentication failed" := by
      rcases hbad with hp | ⟨t, hp, hfar⟩
      · exact verify_rejectTsNone sha edV env r sig ts pk hskip hkeys hsig hts hpk
          hs0 ht0 hp0 hp
      · exact verify_rejectTsFar sha edV env r sig ts pk t hskip hkeys hsig hts hpk
          hs0 ht0 hp0 hp hfar
    exact apiPipeline_of_reject sha edV env r nowMs authSt route 401 "Authentication failed"
      hv (by norm_num) hwin hlim

/-- Claim C5, witnessed: a fresh-timestamp request with a trusted key and an
accepted signature passes; a request whose timestamp is 301 seconds old is
rejected with 401 and counted (counter 0 to 1); a non-numeric timestamp is
rejected the same way. -/
theorem C5_timestamp_freshness_witness :
    verifySignature idHash oracleTrue envAB reqMountVault = .next ∧
    apiPipeline idHash oracleTrue envAB 0 (LimiterState.mk 10 0)
      (reqListH (some "s1") (some "401") (some "ab")) routeOk =
      (401, LimiterState.mk 10 1) ∧
    verifySignature idHash oracleTrue envAB (reqListH (some "s1") (some "late") (some "ab")) =
      .reject 401 "Authentication failed" :=
  ⟨(C5_timestamp_freshness idHash oracleTrue envAB reqMountVault "s1" "100" "ab"
      (by decide) (by decide) rfl rfl rfl (by decide) (by decide) (by decide)).2.2.2.1
      100 rfl (by decide) (by decide) rfl,
   (C5_timestamp_freshness idHash oracleTrue envAB
      (reqListH (some "s1") (some "401") (some "ab")) "s1" "401" "ab"
      (by decide) (by decide) rfl rfl rfl (by decide) (by decide)
      (by decide)).2.2.2.2.2.2 0 (LimiterState.mk 10 0) routeOk (by decide) (by decide)
      (Or.inr ⟨401, rfl, by decide⟩),
   (C5_timestamp_freshness idHash oracleTrue envAB
      (reqListH (some "s1") (some "late") (some "ab")) "s1" "late" "ab"
      (by decide) (by decide) rfl rfl rfl (by decide) (by decide) (by decide)).2.1 rfl⟩

/-- Claim C6, as stated, is false at a concrete input: the configured
trusted-key entry is the uppercase hex `AB` and the claimed key is `AB`,
which matches it case-insensitively (indeed literally), yet the verifier
rejects, because only the claimed key is lowercased before the literal
list-membership test and `ab` is not an entry of the list. -/
theorem C6_counterexample :
    (envUpper.allowedPublicKeys.any fun k => toLowerStr k = toLowerStr "AB") = true ∧
    verifySignature idHash oracleTrue envUpper (reqListH (some "s1") (some "100") (some "AB")) =
      .reject 401 "Authentication failed" :=
  ⟨by decide, by decide⟩

/-- Claim C6 amended: the claimed public key is accepted exactly when its
lowercased hex encoding literally equals one entry of the configured list —
case-insensitive in the claimed key only — and a key with no such match is
rejected as an authentication failure. -/
theorem C6_key_membership (sha : String → String)
    (edV : String → String → String → Except Unit Bool)
    (env : AuthEnv) (r : VRequest) (sig ts pk : String)
    (hskip : skipAuth r = false) (hkeys : env.allowedPublicKeys ≠ [])
    (hsig : r.hSignature = some sig) (hts : r.hTimestamp = some ts)
    (hpk : r.hPublicKey = some pk)
    (hs0 : sig ≠ "") (ht0 : ts ≠ "") (hp0 : pk ≠ "") :
    (toLowerStr pk ∉ env.allowedPublicKeys →
      verifySignature sha edV env r = .reject 401 "Authentication failed") ∧
    (verifySignature sha edV env r = .next → toLowerStr pk ∈ env.allowedPublicKeys) ∧
    (∀ t, toLowerStr pk ∈ env.allowedPublicKeys → parseIntJS ts = some t →
      (env.now - t).natAbs ≤ 300 → edV pk (canonicalMessage sha r ts) sig = .ok true →
      verifySignature sha edV env r = .next) := by
  refine ⟨fun hmem => ?_, fun hnext => ?_, fun t hmem hp hfresh hed => ?_⟩
  · exact verify_rejectKey sha edV env r sig ts pk hskip hkeys hsig hts hpk hs0 ht0 hp0 hmem
  · exact (verify_next_inversion sha edV env r sig ts pk hskip hkeys hsig hts hpk
      hs0 ht0 hp0 hnext).1
  · exact verify_accept sha edV env r sig ts pk t hskip hkeys hsig hts hpk hs0 ht0 hp0
      hmem hp hfresh hed

/-- Claim C6 amended, witnessed: an uppercase CLAIMED key is accepted against
a lowercase configured entry, and an unknown key is rejected. -/
theorem C6_key_membership_witness :
    verifySignature idHash oracleTrue envAB (reqListH (some "s1") (some "100") (some "AB")) =
      .next ∧
    verifySignature idHash oracleTrue envAB (reqListH (some "s1") (some "100") (some "cd")) =
      .reject 401 "Authentication failed" :=
  ⟨(C6_key_membership idHash oracleTrue envAB (reqListH (some "s1") (some "100") (some "AB"))
      "s1" "100" "AB" (by decide) (by decide) rfl rfl rfl (by decide) (by decide)
      (by decide)).2.2 100 (by decide) rfl (by decide) rfl,
   (C6_key_membership idHash oracleTrue envAB (reqListH (some "s1") (some "100") (some "cd"))
      "s1" "100" "cd" (by decide) (by decide) rfl rfl rfl (by decide) (by decide)
      (by decide)).1 (by decide)⟩

/-- Claim C7: a second mount call without an intervening unmount — made
while the volume's worker is active — returns the 400 "Already mounted"
response and leaves the system state untouched (no second worker start), so
two well-formed mounts in a row yield success at most once. The model keys
worker activity per unit name, mirroring the one-service-per-volume-name
scheduling of module.nix. -/
theorem C7_mount_idempotent (sys : SysState) (name : String) (p1 p2 : Option String)
    (hname : nameOk name = true) (hp1 : falsyHeader p1 = false)
    (hp2 : falsyHeader p2 = false) (hact : sys.active name = false)
    (hstart : sys.startOk name = true) (hwrite : sys.writeOk name = true) :
    (mountHandler sys name p1).1 = .success ∧
    (mountHandler (mountHandler sys name p1).2 name p2).1 = .clientError "Already mounted" ∧
    (mountHandler (mountHandler sys name p1).2 name p2).2 = (mountHandler sys name p1).2 ∧
    (∀ st : SysState, st.active name = true →
      mountHandler st name p2 = (.clientError "Already mounted", st)) := by
  have hgen : ∀ st : SysState, st.active name = true →
      mountHandler st name p2 = (.clientError "Already mounted", st) := by
    intro st h
    simp [mountHandler, hname, hp2, h]
  have h1 : mountHandler sys name p1 =
      (.success, SysState.mk (fun n => if n = name then true else sys.active n)
        sys.startOk sys.stopOk sys.writeOk
        (sys.pipeWrites ++ [(name, (p1.getD "") ++ "\n")])) := by
    simp [mountHandler, hname, hp1, hact, hstart, hwrite]
  have h2 : (mountHandler sys name p1).2.active name = true := by
    rw [h1]
    simp
  exact ⟨by rw [h1], by rw [hgen _ h2], by rw [hgen _ h2], hgen⟩

/-- Claim C7, witnessed: on an idle system the first mount succeeds and the
immediate second mount draws "Already mounted". -/
theorem C7_mount_idempotent_witness :
    (mountHandler sysFresh "vault" (some "p")).1 = .success ∧
    (mountHandler (mountHandler sysFresh "vault" (some "p")).2 "vault" (some "q")).1 =
      .clientError "Already mounted" :=
  ⟨(C7_mount_idempotent sysFresh "vault" (some "p") (some "q") (by decide) rfl rfl
      rfl rfl rfl).1,
   (C7_mount_idempotent sysFresh "vault" (some "p") (some "q") (by decide) rfl rfl
      rfl rfl rfl).2.1⟩

/-- Claim C8: a validated mount request whose worker starts ends with
exactly one write of `password + newline` appended to the volume's channel
and an immediate success response; neither the response nor the write
depends on whether the secret is the correct one, and the worker receiving a
wrong secret returns to listening instead of giving up. -/
theorem C8_secret_relay (sys : SysState) (name : String) (pwd correctSecret : String)
    (hname : nameOk name = true) (hpwd : pwd ≠ "")
    (hact : sys.active name = false) (hstart : sys.startOk name = true)
    (hwrite : sys.writeOk name = true) :
    (mountHandler sys name (some pwd)).1 = .success ∧
    (mountHandler sys name (some pwd)).2.pipeWrites =
      sys.pipeWrites ++ [(name, pwd ++ "\n")] ∧
    (pwd ≠ correctSecret → workerStep correctSecret .listening pwd = .listening) := by
  have h1 : mountHandler sys name (some pwd) =
      (.success, SysState.mk (fun n => if n = name then true else sys.active n)
        sys.startOk sys.stopOk sys.writeOk
        (sys.pipeWrites ++ [(name, pwd ++ "\n")])) := by
    simp [mountHandler, hname, hact, hstart, hwrite, falsyHeader, hpwd]
  refine ⟨by rw [h1], by rw [h1], fun hwrong => ?_⟩
  simp [workerStep, hpwd, hwrong]

/-- Claim C8, witnessed: delivering the wrong secret still reports success,
appends one write, and leaves the worker listening. -/
theorem C8_secret_relay_witness :
    (mountHandler sysFresh "vault" (some "wrong")).1 = .success ∧
    (mountHandler sysFresh "vault" (some "wrong")).2.pipeWrites = [("vault", "wrong\n")] ∧
    workerStep "right" .listening "wrong" = .listening :=
  ⟨(C8_secret_relay sysFresh "vault" "wrong" "right" (by decide) (by decide) rfl rfl
      rfl).1,
   (C8_secret_relay sysFresh "vault" "wrong" "right" (by decide) (by decide) rfl rfl
      rfl).2.1,
   (C8_secret_relay sysFresh "vault" "wrong" "right" (by decide) (by decide) rfl rfl
      rfl).2.2 (by decide)⟩

/-- Claim C9: the verification middleware is total — every request, whatever
its header contents, gets either `next()` or a rejection response — and when
the crypto layer raises (malformed hex key, bad key construction, verify
throwing), the catch turns it into the 401 rejection instead of propagating
the exception. -/
theorem C9_no_crash (sha : String → String)
    (edV : String → String → String → Except Unit Bool)
    (env : AuthEnv) (r : VRequest) :
    (verifySignature sha edV env r = .next ∨
      ∃ s m, verifySignature sha edV env r = .reject s m) ∧
    (∀ sig ts pk, skipAuth r = false → env.allowedPublicKeys ≠ [] →
      r.hSignature = some sig → r.hTimestamp = some ts → r.hPublicKey = some pk →
      sig ≠ "" → ts ≠ "" → pk ≠ "" →
      verifyTry sha edV env r sig ts pk = .error () →
      verifySignature sha edV env r = .reject 401 "Signature verification failed") := by
  constructor
  · cases h : verifySignature sha edV env r with
    | next => exact Or.inl rfl
    | reject s m => exact Or.inr ⟨s, m, rfl⟩
  · intro sig ts pk hskip hkeys hsig hts hpk hs0 ht0 hp0 herr
    rw [verifySignature_core sha edV env r sig ts pk hskip hkeys hsig hts hpk hs0 ht0 hp0,
      herr]

/-- Claim C9, witnessed: an always-raising crypto layer yields the caught
401 response. -/
theorem C9_no_crash_witness :
    verifySignature idHash oracleThrow envAB reqMountVault =
      .reject 401 "Signature verification failed" :=
  (C9_no_crash idHash oracleThrow envAB reqMountVault).2 "s1" "100" "ab"
    (by decide) (by decide) rfl rfl rfl (by decide) (by decide) (by decide) rfl

/-- Claim C10: when starting the volume's unlock service fails, the handler
answers the 500 operational fault and returns before the pipe is opened: the
system state — the channel write log included — is left exactly as it was. -/
theorem C10_start_failure_no_write (sys : SysState) (name : String) (pwd : Option String)
    (hname : nameOk name = true) (hpwd : falsyHeader pwd = false)
    (hact : sys.active name = false) (hstart : sys.startOk name = false) :
    mountHandler sys name pwd = (.serverError "Failed to start mount service", sys) ∧
    mountRespStatus (mountHandler sys name pwd).1 = 500 ∧
    (mountHandler sys name pwd).2.pipeWrites = sys.pipeWrites := by
  have h : mountHandler sys name pwd = (.serverError "Failed to start mount service", sys) := by
    simp [mountHandler, hname, hpwd, hact, hstart]
  exact ⟨h, by rw [h]; rfl, by rw [h]⟩

/-- Claim C10, witnessed on a system whose service start fails. -/
theorem C10_start_failure_no_write_witness :
    mountHandler sysStartFail "vault" (some "p") =
      (.serverError "Failed to start mount service", sysStartFail) ∧
    (mountHandler sysStartFail "vault" (some "p")).2.pipeWrites = [] :=
  ⟨(C10_start_failure_no_write sysStartFail "vault" (some "p") (by decide) rfl rfl rfl).1,
   (C10_start_failure_no_write sysStartFail "vault" (some "p") (by decide) rfl rfl rfl).2.2⟩

end SecureUnlocker
